import Mathlib

/-!
Shallow embedding of the identity-and-access-control core of the
dreamy-file-garden repository: the JWT utility module, the auth
middleware, the auth route handlers (login, refresh, change-password)
and the File model's sharing / access-check methods.
-/

namespace DreamyGarden

/-- Permission levels on a sharing grant (`enum: ['read', 'write']`). -/
inductive Permission where
  | read
  | write
deriving DecidableEq, Repr

/-- Token type claim: `type: 'access'` or `type: 'refresh'`. -/
inductive TokenType where
  | access
  | refresh
deriving DecidableEq, Repr

/-- The claims a signed token carries: `userId`, `type`, the fixed
issuer/audience, and the issued-at / expiry timestamps (seconds). -/
structure Claims where
  userId : Nat
  type : TokenType
  iss : String
  aud : String
  iat : Nat
  exp : Nat
deriving DecidableEq, Repr

/-- A compact signed token: claims plus a signature.  The HMAC signature
is modelled as the signing secret itself: verification compares it with
the verifier's secret, which captures exactly sign/verify agreement. -/
structure Token where
  claims : Claims
  sig : String
deriving DecidableEq, Repr

/-- A JavaScript `Error` as the middleware observes it: `name` and
`message` are the only fields the error mapping consults. -/
structure JsError where
  name : String
  message : String
deriving DecidableEq, Repr

/-- The two signing secrets read from the environment
(`JWT_SECRET`, `JWT_REFRESH_SECRET`). -/
structure JwtConfig where
  jwtSecret : String
  jwtRefreshSecret : String
deriving DecidableEq, Repr

/-- Default `JWT_EXPIRES_IN = '15m'`, in seconds. -/
def jwtExpiresIn : Nat := 15 * 60

/-- Default `JWT_REFRESH_EXPIRES_IN = '7d'`, in seconds. -/
def jwtRefreshExpiresIn : Nat := 7 * 24 * 60 * 60

def jwtIssuer : String := "cloudstorage-api"

def jwtAudience : String := "cloudstorage-app"

/-- `jwt.sign(payload, secret, {expiresIn, issuer, audience})` at clock
time `now`: fills in iat/exp and signs with `secret`. -/
def jwtSign (userId : Nat) (type : TokenType) (secret : String)
    (ttl now : Nat) : Token :=
  { claims := { userId := userId, type := type, iss := jwtIssuer,
                aud := jwtAudience, iat := now, exp := now + ttl },
    sig := secret }

/-- `jwt.verify(token, secret, {issuer, audience})` at clock time `now`:
rejects a bad signature or issuer/audience with a `JsonWebTokenError`
and an elapsed expiry with a `TokenExpiredError`. -/
def jwtVerify (token : Token) (secret : String) (now : Nat) :
    Except JsError Claims :=
  if token.sig ≠ secret then
    .error { name := "JsonWebTokenError", message := "invalid signature" }
  else if token.claims.exp ≤ now then
    .error { name := "TokenExpiredError", message := "jwt expired" }
  else if token.claims.aud ≠ jwtAudience then
    .error { name := "JsonWebTokenError", message := "jwt audience invalid" }
  else if token.claims.iss ≠ jwtIssuer then
    .error { name := "JsonWebTokenError", message := "jwt issuer invalid" }
  else
    .ok token.claims

/-- `generateAccessToken(userId)`: signs `{userId, type:'access'}` with
`JWT_SECRET`, short TTL, fixed issuer/audience. -/
def generateAccessToken (cfg : JwtConfig) (userId : Nat) (now : Nat) : Token :=
  jwtSign userId .access cfg.jwtSecret jwtExpiresIn now

/-- `generateRefreshToken(userId)`: signs `{userId, type:'refresh'}` with
`JWT_REFRESH_SECRET`, long TTL, fixed issuer/audience. -/
def generateRefreshToken (cfg : JwtConfig) (userId : Nat) (now : Nat) : Token :=
  jwtSign userId .refresh cfg.jwtRefreshSecret jwtRefreshExpiresIn now

/-- `verifyAccessToken(token)`: any failure of `jwt.verify` — including
the type-mismatch throw inside the same `try` — is caught and re-thrown
as a plain `Error('Invalid access token')`. -/
def verifyAccessToken (cfg : JwtConfig) (token : Token) (now : Nat) :
    Except JsError Claims :=
  match jwtVerify token cfg.jwtSecret now with
  | .error _ => .error { name := "Error", message := "Invalid access token" }
  | .ok decoded =>
    if decoded.type ≠ .access then
      .error { name := "Error", message := "Invalid access token" }
    else
      .ok decoded

/-- `verifyRefreshToken(token)`: same shape against `JWT_REFRESH_SECRET`
and type `'refresh'`; every failure becomes `Error('Invalid refresh token')`. -/
def verifyRefreshToken (cfg : JwtConfig) (token : Token) (now : Nat) :
    Except JsError Claims :=
  match jwtVerify token cfg.jwtRefreshSecret now with
  | .error _ => .error { name := "Error", message := "Invalid refresh token" }
  | .ok decoded =>
    if decoded.type ≠ .refresh then
      .error { name := "Error", message := "Invalid refresh token" }
    else
      .ok decoded

/-- `generateTokenPair(userId)`. -/
structure TokenPair where
  accessToken : Token
  refreshToken : Token
  expiresIn : Nat
deriving DecidableEq, Repr

def generateTokenPair (cfg : JwtConfig) (userId : Nat) (now : Nat) : TokenPair :=
  { accessToken := generateAccessToken cfg userId now,
    refreshToken := generateRefreshToken cfg userId now,
    expiresIn := jwtExpiresIn }

/-- A User record as the auth flows read and write it.  `password`
models the stored bcrypt hash by remembering the plaintext it hashes. -/
structure UserRec where
  id : Nat
  email : String
  password : String
  name : String
  role : String
  isActive : Bool
  refreshToken : Option Token
  lastLogin : Option Nat
deriving DecidableEq, Repr

/-- Modelled from the spec: `verifyPassword(plaintext, hash) -> bool` of
the CredentialStore (`user.comparePassword`, whose bcrypt-backed body in
User.js is outside the provided sources) — true exactly when the
candidate matches the password whose hash is stored. -/
def comparePassword (u : UserRec) (candidate : String) : Bool :=
  candidate == u.password

/-- A sharing grant: `{user, permission, sharedAt}`. -/
structure Grant where
  user : Nat
  permission : Permission
  sharedAt : Nat
deriving DecidableEq, Repr

/-- A File record as the routes and model methods read and write it. -/
structure FileRec where
  filename : String
  originalName : String
  size : Nat
  mimetype : String
  owner : Nat
  isPublic : Bool
  sharedWith : List Grant
  tags : List String
  downloadCount : Nat
  lastAccessed : Option Nat
  isDeleted : Bool
  deletedAt : Option Nat
deriving DecidableEq, Repr

/-- `fileSchema.methods.hasAccess(userId, requiredPermission)`: owner
first, then public-read, then the first matching grant in `sharedWith`. -/
def hasAccess (f : FileRec) (userId : Nat) (required : Permission) : Bool :=
  if f.owner = userId then
    true
  else if f.isPublic ∧ required = .read then
    true
  else
    match f.sharedWith.find? (fun s => s.user == userId) with
    | none => false
    | some share =>
      match required with
      | .read => share.permission == .read || share.permission == .write
      | .write => share.permission == .write

/-- `fileSchema.methods.shareWith(userId, permission)`: removes every
existing grant for `userId`, then appends the fresh grant. -/
def shareWith (f : FileRec) (userId : Nat) (permission : Permission)
    (now : Nat) : FileRec :=
  { f with sharedWith :=
      f.sharedWith.filter (fun s => ! (s.user == userId)) ++
        [{ user := userId, permission := permission, sharedAt := now }] }

/-- `fileSchema.methods.unshareWith(userId)`: removes every grant for
`userId`. -/
def unshareWith (f : FileRec) (userId : Nat) : FileRec :=
  { f with sharedWith := f.sharedWith.filter (fun s => ! (s.user == userId)) }

/-- Outcome of a route handler or middleware, as the client observes it:
an HTTP status and a machine-readable error code on failure. -/
inductive HandlerError where
  | fail (status : Nat) (code : String)
deriving DecidableEq, Repr

/-- `POST /login` handler body (after input validation): find by email,
check active, check password; identical `INVALID_CREDENTIALS` for the
unknown-email and wrong-password failures.  On success rotate the
refresh token slot and update the last login. -/
def login (cfg : JwtConfig) (findByEmail : String → Option UserRec)
    (email password : String) (now : Nat) :
    Except HandlerError (UserRec × TokenPair) :=
  match findByEmail email with
  | none => .error (.fail 401 "INVALID_CREDENTIALS")
  | some user =>
    if ¬ user.isActive then
      .error (.fail 401 "ACCOUNT_DEACTIVATED")
    else if ¬ comparePassword user password then
      .error (.fail 401 "INVALID_CREDENTIALS")
    else
      let tokens := generateTokenPair cfg user.id now
      .ok ({ user with refreshToken := some tokens.refreshToken,
                       lastLogin := some now }, tokens)

/-- `POST /refresh` handler body: extract the presented token, verify it
cryptographically (every `verifyRefreshToken` throw is caught by the
handler's catch and mapped to `INVALID_REFRESH_TOKEN`), look the user up
by the decoded id, compare against the single stored slot, check the
active flag, then rotate: store and return a fresh pair. -/
def refresh (cfg : JwtConfig) (findById : Nat → Option UserRec)
    (presented : Option Token) (now : Nat) :
    Except HandlerError (UserRec × TokenPair) :=
  match presented with
  | none => .error (.fail 401 "NO_REFRESH_TOKEN")
  | some token =>
    match verifyRefreshToken cfg token now with
    | .error _ => .error (.fail 401 "INVALID_REFRESH_TOKEN")
    | .ok decoded =>
      match findById decoded.userId with
      | none => .error (.fail 401 "INVALID_REFRESH_TOKEN")
      | some user =>
        if ¬ (user.refreshToken == some token) then
          .error (.fail 401 "INVALID_REFRESH_TOKEN")
        else if ¬ user.isActive then
          .error (.fail 401 "ACCOUNT_DEACTIVATED")
        else
          let tokens := generateTokenPair cfg user.id now
          .ok ({ user with refreshToken := some tokens.refreshToken }, tokens)

/-- `PUT /change-password` handler body (after input validation):
verify the current password, then set the new one and null the stored
refresh-token slot. -/
def changePassword (user : UserRec) (currentPassword newPassword : String) :
    Except HandlerError UserRec :=
  if ¬ comparePassword user currentPassword then
    .error (.fail 400 "INVALID_CURRENT_PASSWORD")
  else
    .ok { user with password := newPassword, refreshToken := none }

/-- Outcome of an auth middleware: either the request proceeds to the
handler (with `req.user` set or not), or it is rejected. -/
inductive MwOutcome where
  | proceed (user : Option UserRec)
  | reject (status : Nat) (code : String)
deriving DecidableEq, Repr

/-- The `catch` block of the `authenticate` middleware: maps the thrown
error to a response code by its message and name. -/
def mapAuthError (e : JsError) : Nat × String :=
  if e.message = "Invalid access token" ∨ e.name = "JsonWebTokenError" then
    (401, "INVALID_TOKEN")
  else if e.name = "TokenExpiredError" then
    (401, "TOKEN_EXPIRED")
  else
    (500, "AUTH_ERROR")

/-- The `authenticate` middleware, after token extraction: reject with
`NO_TOKEN` when none was presented, map verification throws through the
catch block, then load the user and check the active flag. -/
def authenticate (cfg : JwtConfig) (findById : Nat → Option UserRec)
    (token : Option Token) (now : Nat) : MwOutcome :=
  match token with
  | none => .reject 401 "NO_TOKEN"
  | some t =>
    match verifyAccessToken cfg t now with
    | .error e => .reject (mapAuthError e).1 (mapAuthError e).2
    | .ok decoded =>
      match findById decoded.userId with
      | none => .reject 401 "USER_NOT_FOUND"
      | some user =>
        if ¬ user.isActive then .reject 401 "ACCOUNT_DEACTIVATED"
        else .proceed (some user)

/-- The `optionalAuth` middleware, after token extraction: verification
or lookup failures are swallowed; `req.user` is set only when the token
verifies and the resolved user exists and is active; `next()` always runs. -/
def optionalAuth (cfg : JwtConfig) (findById : Nat → Option UserRec)
    (token : Option Token) (now : Nat) : MwOutcome :=
  .proceed
    (match token with
     | none => none
     | some t =>
       match verifyAccessToken cfg t now with
       | .error _ => none
       | .ok decoded =>
         match findById decoded.userId with
         | none => none
         | some user => if user.isActive then some user else none)

/-- The permission section of the `GET /:id/download` handler: a missing
or soft-deleted record is a 404 before any access check; an anonymous
caller needs `isPublic`; an authenticated caller needs `hasAccess read`. -/
def downloadAccessCheck (fileRecord : Option FileRec) (actor : Option Nat) :
    Except HandlerError FileRec :=
  match fileRecord with
  | none => .error (.fail 404 "File not found")
  | some f =>
    if f.isDeleted then
      .error (.fail 404 "File not found")
    else
      match actor with
      | none =>
        if ¬ f.isPublic then .error (.fail 401 "Authentication required")
        else .ok f
      | some uid =>
        if ¬ hasAccess f uid .read then .error (.fail 403 "Access denied")
        else .ok f

/-! ### Concrete fixtures used by witnesses and counterexamples -/

def cfgA : JwtConfig :=
  { jwtSecret := "access-secret", jwtRefreshSecret := "refresh-secret" }

/-- A private file owned by user 1, shared read with user 2 and write
with user 3. -/
def fShared : FileRec :=
  { filename := "k1", originalName := "doc.txt", size := 10,
    mimetype := "text/plain", owner := 1, isPublic := false,
    sharedWith := [{ user := 2, permission := .read, sharedAt := 0 },
                   { user := 3, permission := .write, sharedAt := 0 }],
    tags := [], downloadCount := 0, lastAccessed := none,
    isDeleted := false, deletedAt := none }

/-- A soft-deleted private file owned by user 1. -/
def fDeleted : FileRec :=
  { filename := "k2", originalName := "gone.txt", size := 3,
    mimetype := "text/plain", owner := 1, isPublic := false,
    sharedWith := [], tags := [], downloadCount := 0, lastAccessed := none,
    isDeleted := true, deletedAt := some 5 }

/-! ### C1: the authorization matrix of hasAccess -/

/-- C1: `hasAccess` resolves exactly as the matrix states.  The owner
passes both permissions (the owner check short-circuits first, so this
holds whatever grants the shared list holds for the owner); a public
resource grants read to every caller; a non-owner whose first grant is
read passes read but not write; one whose first grant is write passes
both; a non-owner with no grant fails write and passes read only when
the resource is public. -/
theorem hasAccess_matrix (f : FileRec) (uid : Nat) (g : Grant) :
    (uid = f.owner →
      hasAccess f uid .read = true ∧ hasAccess f uid .write = true) ∧
    (f.isPublic = true → hasAccess f uid .read = true) ∧
    (uid ≠ f.owner → f.sharedWith.find? (fun s => s.user == uid) = some g →
      (g.permission = .read →
        hasAccess f uid .read = true ∧ hasAccess f uid .write = false) ∧
      (g.permission = .write →
        hasAccess f uid .read = true ∧ hasAccess f uid .write = true)) ∧
    (uid ≠ f.owner → f.sharedWith.find? (fun s => s.user == uid) = none →
      hasAccess f uid .read = f.isPublic ∧ hasAccess f uid .write = false) := by
  refine ⟨?_, ?_, ?_, ?_⟩
  · intro h
    simp [hasAccess, h.symm]
  · intro hp
    by_cases ho : f.owner = uid
    · simp [hasAccess, ho]
    · simp [hasAccess, ho, hp]
  · intro hne hfind
    have ho : ¬ (f.owner = uid) := fun h => hne h.symm
    constructor
    · intro hg
      by_cases hp : f.isPublic <;>
        simp [hasAccess, ho, hfind, hg, hp]
    · intro hg
      by_cases hp : f.isPublic <;>
        simp [hasAccess, ho, hfind, hg, hp]
  · intro hne hfind
    have ho : ¬ (f.owner = uid) := fun h => hne h.symm
    by_cases hp : f.isPublic <;>
      simp [hasAccess, ho, hfind, hp]

/-- Witness for C1 on a concrete file: the owner (also checking the
short-circuit) and the read-sharer evaluate as the matrix states. -/
theorem hasAccess_matrix_witness :
    (hasAccess fShared 1 .read = true ∧ hasAccess fShared 1 .write = true) ∧
    (hasAccess fShared 2 .read = true ∧ hasAccess fShared 2 .write = false) :=
  ⟨(hasAccess_matrix fShared 1 { user := 2, permission := .read, sharedAt := 0 }).1
      (by decide),
   ((hasAccess_matrix fShared 2 { user := 2, permission := .read, sharedAt := 0 }).2.2.1
      (by decide) (by decide)).1 rfl⟩

/-! ### C2: soft-deleted resources and the access check -/

/-- C2 counterexample: invoked directly on a soft-deleted resource, the
`hasAccess` method does not return false — the owner still passes both
permissions, because the method never consults `isDeleted`. -/
theorem hasAccess_deleted_counterexample :
    fDeleted.isDeleted = true ∧
    hasAccess fDeleted 1 .read = true ∧ hasAccess fDeleted 1 .write = true := by
  decide

/-- C2 amended: the fail-closed guard for soft-deleted resources lives
in the route handlers, not in `hasAccess`: the download handler answers
404 for every actor (anonymous or any authenticated user, the owner
included) when the resolved record is soft-deleted, before any
`hasAccess` call. -/
theorem download_deleted_fails_closed (f : FileRec) (actor : Option Nat)
    (h : f.isDeleted = true) :
    downloadAccessCheck (some f) actor = .error (.fail 404 "File not found") := by
  simp [downloadAccessCheck, h]

/-- Witness for C2's amended theorem: the deleted fixture is rejected
with 404 for its own owner. -/
theorem download_deleted_fails_closed_witness :
    downloadAccessCheck (some fDeleted) (some 1) =
      .error (.fail 404 "File not found") :=
  download_deleted_fails_closed fDeleted (some 1) rfl

/-! ### Helper lemmas about jwtVerify -/

/-- Inversion: a successful `jwtVerify` pins down every checked field. -/
lemma jwtVerify_ok_inv {token : Token} {secret : String} {now : Nat}
    {c : Claims} (h : jwtVerify token secret now = .ok c) :
    token.sig = secret ∧ now < token.claims.exp ∧
    token.claims.aud = jwtAudience ∧ token.claims.iss = jwtIssuer ∧
    c = token.claims := by
  unfold jwtVerify at h
  by_cases h1 : token.sig ≠ secret
  · simp [h1] at h
  · by_cases h2 : token.claims.exp ≤ now
    · simp [h1, h2] at h
    · by_cases h3 : token.claims.aud ≠ jwtAudience
      · simp [h1, h2, h3] at h
      · by_cases h4 : token.claims.iss ≠ jwtIssuer
        · simp [h1, h2, h3, h4] at h
        · simp [h1, h2, h3, h4] at h
          exact ⟨not_not.mp h1, Nat.lt_of_not_le h2, not_not.mp h3,
                 not_not.mp h4, h.symm⟩

/-- A `jwtVerify` call whose every check passes succeeds. -/
lemma jwtVerify_eq_ok {token : Token} {secret : String} {now : Nat}
    (h1 : token.sig = secret) (h2 : now < token.claims.exp)
    (h3 : token.claims.aud = jwtAudience) (h4 : token.claims.iss = jwtIssuer) :
    jwtVerify token secret now = .ok token.claims := by
  unfold jwtVerify
  simp [h1, h3, h4, Nat.not_le.mpr h2]

/-! ### C6: type/secret isolation of the two token kinds -/

/-- C6: for every configuration (the two secrets equal or not), every
user id and every pair of clock times, an access token fails
`verifyRefreshToken` and a refresh token fails `verifyAccessToken`:
when the secrets differ the signature check fails, and when they
coincide the `type` claim check still rejects the token. -/
theorem token_type_isolation (cfg : JwtConfig) (u now t : Nat) :
    verifyRefreshToken cfg (generateAccessToken cfg u now) t =
      .error { name := "Error", message := "Invalid refresh token" } ∧
    verifyAccessToken cfg (generateRefreshToken cfg u now) t =
      .error { name := "Error", message := "Invalid access token" } := by
  constructor
  · unfold verifyRefreshToken
    cases hv : jwtVerify (generateAccessToken cfg u now) cfg.jwtRefreshSecret t with
    | error e => simp [hv]
    | ok c =>
      obtain ⟨_, _, _, _, hc⟩ := jwtVerify_ok_inv hv
      have ht : c.type = .access := by
        rw [hc]; rfl
      simp [hv, ht]
  · unfold verifyAccessToken
    cases hv : jwtVerify (generateRefreshToken cfg u now) cfg.jwtSecret t with
    | error e => simp [hv]
    | ok c =>
      obtain ⟨_, _, _, _, hc⟩ := jwtVerify_ok_inv hv
      have ht : c.type = .refresh := by
        rw [hc]; rfl
      simp [hv, ht]

/-! ### C9: round-trip of a freshly issued access token -/

/-- C9: verifying a freshly issued access token before its TTL elapses
succeeds and returns the very claims that were signed: the subject is
the issuing user id and the type is access. -/
theorem verifyAccessToken_roundtrip (cfg : JwtConfig) (u now t : Nat)
    (h : t < now + jwtExpiresIn) :
    verifyAccessToken cfg (generateAccessToken cfg u now) t =
      .ok { userId := u, type := .access, iss := jwtIssuer,
            aud := jwtAudience, iat := now, exp := now + jwtExpiresIn } := by
  have hv : jwtVerify (generateAccessToken cfg u now) cfg.jwtSecret t =
      .ok (generateAccessToken cfg u now).claims :=
    jwtVerify_eq_ok rfl h rfl rfl
  unfold verifyAccessToken
  simp [hv]
  rfl

/-- Witness for C9: a token for user 7 issued at time 0 verifies at
time 100 and yields userId 7 with type access. -/
theorem verifyAccessToken_roundtrip_witness :
    verifyAccessToken cfgA (generateAccessToken cfgA 7 0) 100 =
      .ok { userId := 7, type := .access, iss := jwtIssuer,
            aud := jwtAudience, iat := 0, exp := 0 + jwtExpiresIn } :=
  verifyAccessToken_roundtrip cfgA 7 0 100 (by decide)

/-! ### C4: expired access tokens surface as INVALID_TOKEN, not TOKEN_EXPIRED -/

/-- C4: on an access token whose TTL has elapsed (and which would pass
every other check), `verifyAccessToken`'s catch-all converts the
library's `TokenExpiredError` into the generic
`Error('Invalid access token')`, so the authenticate middleware's
`TOKEN_EXPIRED` branch never fires and the client sees `INVALID_TOKEN`. -/
theorem expired_access_token_maps_to_invalid (cfg : JwtConfig)
    (find : Nat → Option UserRec) (u iat now : Nat)
    (h : iat + jwtExpiresIn ≤ now) :
    verifyAccessToken cfg (generateAccessToken cfg u iat) now =
      .error { name := "Error", message := "Invalid access token" } ∧
    authenticate cfg find (some (generateAccessToken cfg u iat)) now =
      .reject 401 "INVALID_TOKEN" := by
  have hv : jwtVerify (generateAccessToken cfg u iat) cfg.jwtSecret now =
      .error { name := "TokenExpiredError", message := "jwt expired" } := by
    unfold jwtVerify generateAccessToken jwtSign
    simp [h]
  have hva : verifyAccessToken cfg (generateAccessToken cfg u iat) now =
      .error { name := "Error", message := "Invalid access token" } := by
    unfold verifyAccessToken
    simp [hv]
  refine ⟨hva, ?_⟩
  unfold authenticate
  simp [hva, mapAuthError]

/-- Witness for C4: user 7's token issued at time 0 presented at time
1000 (past the 900-second TTL) is rejected as `INVALID_TOKEN`. -/
theorem expired_access_token_maps_to_invalid_witness :
    verifyAccessToken cfgA (generateAccessToken cfgA 7 0) 1000 =
      .error { name := "Error", message := "Invalid access token" } ∧
    authenticate cfgA (fun _ => none) (some (generateAccessToken cfgA 7 0)) 1000 =
      .reject 401 "INVALID_TOKEN" :=
  expired_access_token_maps_to_invalid cfgA (fun _ => none) 7 0 1000 (by decide)

/-! ### C7: login failures do not reveal which emails exist -/

/-- C7: an unknown email and a wrong password on an existing active
account produce the identical response: 401 with `INVALID_CREDENTIALS`. -/
theorem login_enumeration_resistant (cfg : JwtConfig)
    (findByEmail : String → Option UserRec) (e1 e2 pw1 pw2 : String)
    (u : UserRec) (now : Nat)
    (h1 : findByEmail e1 = none)
    (h2 : findByEmail e2 = some u) (hact : u.isActive = true)
    (hpw : comparePassword u pw2 = false) :
    login cfg findByEmail e1 pw1 now =
      .error (.fail 401 "INVALID_CREDENTIALS") ∧
    login cfg findByEmail e2 pw2 now =
      .error (.fail 401 "INVALID_CREDENTIALS") := by
  constructor
  · simp [login, h1]
  · simp [login, h2, hact, hpw]

/-- An active local account used by the login and change-password
witnesses. -/
def uAnn : UserRec :=
  { id := 1, email := "b@x.com", password := "Secret1", name := "Ann",
    role := "user", isActive := true, refreshToken := none, lastLogin := none }

/-- Witness for C7: the one-user directory holding only Ann answers
`INVALID_CREDENTIALS` both for a missing email and for Ann's email with
a wrong password. -/
theorem login_enumeration_resistant_witness :
    login cfgA (fun e => if e = "b@x.com" then some uAnn else none)
        "a@x.com" "whatever" 0 = .error (.fail 401 "INVALID_CREDENTIALS") ∧
    login cfgA (fun e => if e = "b@x.com" then some uAnn else none)
        "b@x.com" "wrong" 0 = .error (.fail 401 "INVALID_CREDENTIALS") :=
  login_enumeration_resistant cfgA
    (fun e => if e = "b@x.com" then some uAnn else none)
    "a@x.com" "b@x.com" "whatever" "wrong" uAnn 0
    (by decide) (by decide) (by decide) (by decide)

/-! ### C8: at most one grant per user, preserved by sharing operations -/

/-- C8: `shareWith` has upsert semantics — on the shared user the
resulting list carries exactly the one fresh grant; both `shareWith`
and `unshareWith` preserve the at-most-one-grant-per-user invariant
(no-duplicate users in `sharedWith`); and `unshareWith` is the
identity when the user holds no grant. -/
theorem sharing_single_grant_invariant (f : FileRec) (uid : Nat)
    (p : Permission) (now : Nat) :
    ((shareWith f uid p now).sharedWith.filter (fun s => s.user == uid) =
      [{ user := uid, permission := p, sharedAt := now }]) ∧
    ((f.sharedWith.map Grant.user).Nodup →
      (((shareWith f uid p now).sharedWith.map Grant.user).Nodup ∧
       ((unshareWith f uid).sharedWith.map Grant.user).Nodup)) ∧
    ((∀ g ∈ f.sharedWith, g.user ≠ uid) → unshareWith f uid = f) := by
  have hfilter :
      (f.sharedWith.filter (fun s => ! (s.user == uid))).filter
        (fun s => s.user == uid) = [] := by
    rw [List.filter_eq_nil_iff]
    intro a ha
    have h2 := (List.mem_filter.mp ha).2
    simp only [Bool.not_eq_true'] at h2
    simp [h2]
  refine ⟨?_, ?_, ?_⟩
  · unfold shareWith
    simp only [List.filter_append, hfilter, List.nil_append]
    simp
  · intro hnd
    have hsub :
        ((f.sharedWith.filter (fun s => ! (s.user == uid))).map Grant.user).Nodup :=
      List.Nodup.sublist ((List.filter_sublist _).map Grant.user) hnd
    constructor
    · unfold shareWith
      simp only [List.map_append, List.map_cons, List.map_nil]
      refine List.Nodup.append hsub (by simp) ?_
      intro a ha hb
      simp only [List.mem_singleton] at hb
      subst hb
      obtain ⟨g, hg, hgu⟩ := List.mem_map.mp ha
      have h2 := (List.mem_filter.mp hg).2
      simp only [Bool.not_eq_true'] at h2
      rw [hgu] at h2
      simp at h2
    · exact hsub
  · intro hall
    have : f.sharedWith.filter (fun s => ! (s.user == uid)) = f.sharedWith := by
      rw [List.filter_eq_self]
      intro a ha
      simp [hall a ha]
    unfold unshareWith
    rw [this]

/-- Witness for C8: re-sharing the file with user 2 (already a reader)
as a writer leaves a single grant for user 2 and keeps the list
duplicate-free, as does revoking. -/
theorem sharing_single_grant_invariant_witness :
    ((shareWith fShared 2 .write 9).sharedWith.filter (fun s => s.user == 2) =
      [{ user := 2, permission := .write, sharedAt := 9 }]) ∧
    (((shareWith fShared 2 .write 9).sharedWith.map Grant.user).Nodup ∧
     ((unshareWith fShared 2).sharedWith.map Grant.user).Nodup) :=
  ⟨(sharing_single_grant_invariant fShared 2 .write 9).1,
   (sharing_single_grant_invariant fShared 2 .write 9).2.1 (by decide)⟩

/-! ### C10: optionalAuth never rejects and attaches exactly the active users -/

/-- C10: `optionalAuth` always lets the request proceed, and it attaches
an actor exactly when a token was presented, it verifies as an access
token, the decoded user id resolves to an existing user, and that user
is active; a deactivated account's valid token therefore yields
anonymous treatment, not a rejection. -/
theorem optionalAuth_total_and_exact (cfg : JwtConfig)
    (findById : Nat → Option UserRec) (token : Option Token) (now : Nat) :
    (∃ a, optionalAuth cfg findById token now = .proceed a) ∧
    (∀ u : UserRec,
      optionalAuth cfg findById token now = .proceed (some u) ↔
        ∃ t decoded, token = some t ∧
          verifyAccessToken cfg t now = .ok decoded ∧
          findById decoded.userId = some u ∧ u.isActive = true) := by
  constructor
  · exact ⟨_, rfl⟩
  · intro u
    unfold optionalAuth
    cases token with
    | none => simp
    | some t =>
      cases hv : verifyAccessToken cfg t now with
      | error e => simp [hv]
      | ok decoded =>
        cases hf : findById decoded.userId with
        | none => simp [hv, hf]
        | some v =>
          by_cases ha : v.isActive
          · simp only [hv, hf, ha, if_pos, MwOutcome.proceed.injEq,
              Option.some.injEq]
            constructor
            · intro h
              exact ⟨t, decoded, rfl, hv, by rw [hf, h], by rw [← h]; exact ha⟩
            · rintro ⟨t2, d2, ht2, hv2, hf2, hu⟩
              cases ht2
              rw [hv] at hv2
              cases hv2
              rw [hf] at hf2
              cases hf2
              rfl
          · simp only [hv, hf, ha, if_neg, Bool.false_eq_true]
            constructor
            · intro h
              simp at h
            · rintro ⟨t2, d2, ht2, hv2, hf2, hu⟩
              cases ht2
              rw [hv] at hv2
              cases hv2
              rw [hf] at hf2
              cases hf2
              exact absurd hu ha

/-- Witness for C10: with a valid fresh token for user 1 and a directory
resolving id 1 to an active user, `optionalAuth` proceeds with that
actor attached. -/
theorem optionalAuth_total_and_exact_witness :
    optionalAuth cfgA (fun i => if i = 1 then some uAnn else none)
        (some (generateAccessToken cfgA 1 0)) 5 = .proceed (some uAnn) :=
  ((optionalAuth_total_and_exact cfgA (fun i => if i = 1 then some uAnn else none)
      (some (generateAccessToken cfgA 1 0)) 5).2 uAnn).mpr
    ⟨generateAccessToken cfgA 1 0, (generateAccessToken cfgA 1 0).claims,
     rfl, rfl, rfl, rfl⟩

/-! ### Helper lemmas about verifyRefreshToken and the refresh handler -/

/-- Inversion of a successful `verifyRefreshToken`. -/
lemma verifyRefreshToken_ok_inv {cfg : JwtConfig} {token : Token}
    {now : Nat} {decoded : Claims}
    (h : verifyRefreshToken cfg token now = .ok decoded) :
    token.sig = cfg.jwtRefreshSecret ∧ now < token.claims.exp ∧
    token.claims.aud = jwtAudience ∧ token.claims.iss = jwtIssuer ∧
    token.claims.type = .refresh ∧ decoded = token.claims := by
  unfold verifyRefreshToken at h
  cases hv : jwtVerify token cfg.jwtRefreshSecret now with
  | error e => rw [hv] at h; simp at h
  | ok c =>
    rw [hv] at h
    obtain ⟨hs, he, haud, hiss, hc⟩ := jwtVerify_ok_inv hv
    subst hc
    by_cases ht : token.claims.type = TokenType.refresh
    · simp [ht] at h
      exact ⟨hs, he, haud, hiss, ht, h.symm⟩
    · simp [ht] at h

/-- Inversion of a successful refresh: the presented token verified
(and decoded to its own claims), and the returned user record stores
exactly the freshly issued refresh token. -/
lemma refresh_ok_inv {cfg : JwtConfig} {findById : Nat → Option UserRec}
    {r : Token} {t : Nat} {u1 : UserRec} {pair : TokenPair}
    (h : refresh cfg findById (some r) t = .ok (u1, pair)) :
    verifyRefreshToken cfg r t = .ok r.claims ∧
    u1.refreshToken = some pair.refreshToken := by
  cases hv : verifyRefreshToken cfg r t with
  | error e =>
    simp only [refresh, hv] at h
    exact Except.noConfusion h
  | ok decoded =>
    simp only [refresh, hv] at h
    have hdec : decoded = r.claims := (verifyRefreshToken_ok_inv hv).2.2.2.2.2
    subst hdec
    cases hf : findById r.claims.userId with
    | none =>
      simp only [hf] at h
      exact Except.noConfusion h
    | some u =>
      simp only [hf] at h
      by_cases hrt : (u.refreshToken == some r) = true
      · by_cases hact : u.isActive = true
        · simp only [hrt, hact, Bool.true_eq_false, not_true_eq_false,
            if_false, ite_false, ite_true, not_false_eq_true, if_true,
            Except.ok.injEq, Prod.mk.injEq] at h
          obtain ⟨hu, hp⟩ := h
          exact ⟨rfl, by rw [← hu, ← hp]⟩
        · simp [hrt, hact] at h
      · simp [hrt] at h

/-! ### C3: rotation blocks replay of a superseded refresh token -/

/-- A refresh token for user 1 issued at time 0 with the fixture
secrets. -/
def rStale : Token := generateRefreshToken cfgA 1 0

/-- User 1 with `rStale` as the stored refresh token. -/
def uBob : UserRec :=
  { id := 1, email := "bob@x.com", password := "Pw1", name := "Bob",
    role := "user", isActive := true, refreshToken := some rStale,
    lastLogin := none }

/-- A one-user directory resolving id 1 to `uBob`. -/
def findBob : Nat → Option UserRec := fun i => if i = 1 then some uBob else none

/-- C3 counterexample: when the rotation happens at the same timestamp
at which r1 itself was issued, the deterministic signing call
regenerates the identical token, the stored slot still equals r1, and a
second refresh presenting r1 succeeds instead of failing with
`INVALID_REFRESH_TOKEN`. -/
theorem refresh_replay_counterexample :
    refresh cfgA findBob (some rStale) 0 =
      .ok (uBob, generateTokenPair cfgA 1 0) ∧
    (generateTokenPair cfgA 1 0).refreshToken = rStale ∧
    (refresh cfgA findBob (some rStale) 1).isOk = true :=
  ⟨rfl, rfl, rfl⟩

/-- C3 amended: provided the rotated token r2 actually differs from r1
(the rotation was not at r1's own issuance timestamp), a second refresh
presenting r1 against the rotated record fails with
`INVALID_REFRESH_TOKEN`, even though r1 still passes cryptographic
verification (has not expired). -/
theorem refresh_rotation_blocks_replay (cfg : JwtConfig)
    (findById findById2 : Nat → Option UserRec) (r1 : Token)
    (t1 t2 : Nat) (u1 : UserRec) (pair : TokenPair)
    (h1 : refresh cfg findById (some r1) t1 = .ok (u1, pair))
    (hnew : pair.refreshToken ≠ r1)
    (hexp : t2 < r1.claims.exp)
    (hfind2 : findById2 r1.claims.userId = some u1) :
    refresh cfg findById2 (some r1) t2 =
      .error (.fail 401 "INVALID_REFRESH_TOKEN") := by
  obtain ⟨hver1, hstored⟩ := refresh_ok_inv h1
  obtain ⟨hs, _, haud, hiss, htype, _⟩ := verifyRefreshToken_ok_inv hver1
  have hver2 : verifyRefreshToken cfg r1 t2 = .ok r1.claims := by
    unfold verifyRefreshToken
    rw [jwtVerify_eq_ok hs hexp haud hiss]
    simp [htype]
  have hne : (u1.refreshToken == some r1) = false := by
    rw [hstored]
    simp [hnew]
  simp only [refresh, hver2, hfind2]
  simp [hne]

/-- Witness for C3's amended theorem: r1 issued at time 0, rotated at
time 5 (so r2 carries a different iat and differs from r1), replayed at
time 6. -/
theorem refresh_rotation_blocks_replay_witness :
    refresh cfgA
        (fun i => if i = 1 then
          some { uBob with
                 refreshToken := some (generateTokenPair cfgA 1 5).refreshToken }
          else none)
        (some rStale) 6 =
      .error (.fail 401 "INVALID_REFRESH_TOKEN") :=
  refresh_rotation_blocks_replay cfgA findBob
    (fun i => if i = 1 then
      some { uBob with
             refreshToken := some (generateTokenPair cfgA 1 5).refreshToken }
      else none)
    rStale 5 6
    { uBob with refreshToken := some (generateTokenPair cfgA 1 5).refreshToken }
    (generateTokenPair cfgA 1 5)
    rfl (by decide) (by decide) rfl

/-! ### C5: a password change invalidates every other session -/

/-- C5: a successful change-password with the correct current password
stores the new password and nulls the single refresh-token slot, so any
subsequent refresh presenting a cryptographically valid refresh token —
in particular the one another session holds — fails with
`INVALID_REFRESH_TOKEN`. -/
theorem changePassword_invalidates_sessions (cfg : JwtConfig)
    (u u2 : UserRec) (current newPw : String) (r : Token) (d : Claims)
    (t : Nat)
    (hchg : changePassword u current newPw = .ok u2)
    (hver : verifyRefreshToken cfg r t = .ok d) :
    u2.password = newPw ∧ u2.refreshToken = none ∧
    refresh cfg (fun i => if i = u2.id then some u2 else none) (some r) t =
      .error (.fail 401 "INVALID_REFRESH_TOKEN") := by
  by_cases hc : comparePassword u current = true
  · have hu2 : u2 = { u with password := newPw, refreshToken := none } := by
      unfold changePassword at hchg
      simp [hc] at hchg
      exact hchg.symm
    have hpw : u2.password = newPw := by rw [hu2]
    have hrt : u2.refreshToken = none := by rw [hu2]
    have hne : (u2.refreshToken == some r) = false := by rw [hrt]; rfl
    refine ⟨hpw, hrt, ?_⟩
    simp only [refresh, hver]
    by_cases hd : d.userId = u2.id
    · simp [hd, hne]
    · simp [hd]
  · unfold changePassword at hchg
    simp [hc] at hchg

/-- Ann's record after a successful password change. -/
def uAnnAfter : UserRec := { uAnn with password := "Newpass1", refreshToken := none }

/-- Witness for C5: Ann changes her password; the refresh token another
session obtained at time 0 is rejected at time 5. -/
theorem changePassword_invalidates_sessions_witness :
    uAnnAfter.password = "Newpass1" ∧ uAnnAfter.refreshToken = none ∧
    refresh cfgA (fun i => if i = uAnnAfter.id then some uAnnAfter else none)
        (some (generateRefreshToken cfgA 1 0)) 5 =
      .error (.fail 401 "INVALID_REFRESH_TOKEN") :=
  changePassword_invalidates_sessions cfgA uAnn uAnnAfter "Secret1" "Newpass1"
    (generateRefreshToken cfgA 1 0) (generateRefreshToken cfgA 1 0).claims 5
    rfl rfl

end DreamyGarden
